import Mathlib

set_option maxRecDepth 100000

/-!
Verification of the uploadcare-rust client library.

This file gives a shallow embedding of the library's data model and
operations (request signing, client construction, response/status
handling, form building, and the multipart upload flow), translated from
the Rust sources:

  src/ucare/rest/auth.rs, src/ucare/rest/mod.rs,
  src/ucare/upload/auth.rs, src/ucare/upload/mod.rs,
  src/ucare/error.rs, src/ucare/mod.rs, src/upload.rs, src/webhook.rs,
  tests/upload.rs (the chunking loop driving the multipart flow).

Modelling conventions:
  * machine integers are `Nat` (or `Int`) with explicit reduction
    modulo 2^32 / 2^64 where the Rust code wraps or truncates;
  * bytes are `Nat` values below 256, byte buffers are `List Nat`;
  * HTTP header values are plain strings; a `HeaderMap` lookup that the
    Rust code performs with a panicking index is modelled with `Option`
    (`none` = panic), and `str::parse::<i32>().unwrap()` is modelled by
    an executable `parseI32` returning `Option Int`;
  * fallible paths return `Option`/`Except`; a Rust panic is `none`;
  * serde JSON (de)serialization of response bodies is kept abstract: the
    response handlers take the decoder as an explicit function argument;
  * the hash primitives MD5, SHA-1, SHA-256 and HMAC (as provided to the
    Rust code by the `rust-crypto` crate) are implemented here in full and
    validated below against the test vectors recorded in the repository's
    own unit tests.
-/

/-! ## 32-bit arithmetic helpers -/

/-- The modulus for 32-bit words, 2^32. -/
def w32 : Nat := 4294967296

/-- Reduce modulo 2^32. -/
def wrap32 (n : Nat) : Nat := n % w32

/-- Left rotation of a 32-bit word. -/
def rotl32 (n s : Nat) : Nat := ((n <<< s) ||| (n >>> (32 - s))) % w32

/-- Right rotation of a 32-bit word. -/
def rotr32 (n s : Nat) : Nat := ((n >>> s) ||| (n <<< (32 - s))) % w32

/-- Bitwise complement of a 32-bit word. -/
def not32 (n : Nat) : Nat := n ^^^ 4294967295

/-! ## Bytes and words -/

/-- Little-endian 32-bit word from four bytes. -/
def leWord (b0 b1 b2 b3 : Nat) : Nat :=
  b0 + 256 * b1 + 65536 * b2 + 16777216 * b3

/-- Big-endian 32-bit word from four bytes. -/
def beWord (b0 b1 b2 b3 : Nat) : Nat :=
  b3 + 256 * b2 + 65536 * b1 + 16777216 * b0

/-- Split a byte list into little-endian 32-bit words. -/
def wordsLE : List Nat → List Nat
  | b0 :: b1 :: b2 :: b3 :: rest => leWord b0 b1 b2 b3 :: wordsLE rest
  | _ => []

/-- Split a byte list into big-endian 32-bit words. -/
def wordsBE : List Nat → List Nat
  | b0 :: b1 :: b2 :: b3 :: rest => beWord b0 b1 b2 b3 :: wordsBE rest
  | _ => []

/-- Little-endian byte serialization of a 32-bit word. -/
def wordLEBytes (n : Nat) : List Nat :=
  [n % 256, n / 256 % 256, n / 65536 % 256, n / 16777216 % 256]

/-- Big-endian byte serialization of a 32-bit word. -/
def wordBEBytes (n : Nat) : List Nat :=
  [n / 16777216 % 256, n / 65536 % 256, n / 256 % 256, n % 256]

/-- Little-endian 64-bit length field (8 bytes). -/
def len64LE (n : Nat) : List Nat :=
  [n % 256, n / 256 % 256, n / 65536 % 256, n / 16777216 % 256,
   n / 4294967296 % 256, n / 1099511627776 % 256,
   n / 281474976710656 % 256, n / 72057594037927936 % 256]

/-- Big-endian 64-bit length field (8 bytes). -/
def len64BE (n : Nat) : List Nat :=
  [n / 72057594037927936 % 256, n / 281474976710656 % 256,
   n / 1099511627776 % 256, n / 4294967296 % 256,
   n / 16777216 % 256, n / 65536 % 256, n / 256 % 256, n % 256]

/-- Merkle–Damgård padding bytes (0x80 then zeros) for a message of
`len` bytes, bringing `len + 1 + k` to 56 modulo 64. -/
def mdPadding (len : Nat) : List Nat :=
  128 :: List.replicate ((119 - len % 64) % 64) 0

/-- Split a byte list into 64-byte blocks; structural recursion on a
fuel argument so that the kernel can evaluate it (the fuel is an upper
bound on the number of blocks, and `blocks64` passes the list length,
which always suffices since every step consumes at least one byte). -/
def blocks64Aux : Nat → List Nat → List (List Nat)
  | _, [] => []
  | 0, _ :: _ => []
  | fuel + 1, b :: rest =>
    ((b :: rest).take 64) :: blocks64Aux fuel ((b :: rest).drop 64)

/-- Split a byte list into 64-byte blocks. -/
def blocks64 (l : List Nat) : List (List Nat) := blocks64Aux l.length l

/-! ## MD5 (RFC 1321) -/

/-- The 64 MD5 sine-derived constants. -/
def md5K : List Nat :=
  [0xd76aa478, 0xe8c7b756, 0x242070db, 0xc1bdceee,
   0xf57c0faf, 0x4787c62a, 0xa8304613, 0xfd469501,
   0x698098d8, 0x8b44f7af, 0xffff5bb1, 0x895cd7be,
   0x6b901122, 0xfd987193, 0xa679438e, 0x49b40821,
   0xf61e2562, 0xc040b340, 0x265e5a51, 0xe9b6c7aa,
   0xd62f105d, 0x02441453, 0xd8a1e681, 0xe7d3fbc8,
   0x21e1cde6, 0xc33707d6, 0xf4d50d87, 0x455a14ed,
   0xa9e3e905, 0xfcefa3f8, 0x676f02d9, 0x8d2a4c8a,
   0xfffa3942, 0x8771f681, 0x6d9d6122, 0xfde5380c,
   0xa4beea44, 0x4bdecfa9, 0xf6bb4b60, 0xbebfbc70,
   0x289b7ec6, 0xeaa127fa, 0xd4ef3085, 0x04881d05,
   0xd9d4d039, 0xe6db99e5, 0x1fa27cf8, 0xc4ac5665,
   0xf4292244, 0x432aff97, 0xab9423a7, 0xfc93a039,
   0x655b59c3, 0x8f0ccc92, 0xffeff47d, 0x85845dd1,
   0x6fa87e4f, 0xfe2ce6e0, 0xa3014314, 0x4e0811a1,
   0xf7537e82, 0xbd3af235, 0x2ad7d2bb, 0xeb86d391]

/-- The 64 MD5 per-round left-rotation amounts. -/
def md5S : List Nat :=
  [7, 12, 17, 22, 7, 12, 17, 22, 7, 12, 17, 22, 7, 12, 17, 22,
   5, 9, 14, 20, 5, 9, 14, 20, 5, 9, 14, 20, 5, 9, 14, 20,
   4, 11, 16, 23, 4, 11, 16, 23, 4, 11, 16, 23, 4, 11, 16, 23,
   6, 10, 15, 21, 6, 10, 15, 21, 6, 10, 15, 21, 6, 10, 15, 21]

/-- MD5 message-word index for round `i`. -/
def md5g (i : Nat) : Nat :=
  if i < 16 then i
  else if i < 32 then (5 * i + 1) % 16
  else if i < 48 then (3 * i + 5) % 16
  else (7 * i) % 16

/-- MD5 round function for round `i`. -/
def md5f (i b c d : Nat) : Nat :=
  if i < 16 then (b &&& c) ||| (not32 b &&& d)
  else if i < 32 then (d &&& b) ||| (not32 d &&& c)
  else if i < 48 then b ^^^ c ^^^ d
  else c ^^^ (b ||| not32 d)

/-- One MD5 round on the running state. -/
def md5Step (m : List Nat) (st : Nat × Nat × Nat × Nat) (i : Nat) :
    Nat × Nat × Nat × Nat :=
  let (a, b, c, d) := st
  let x := (a + md5f i b c d + md5K.getD i 0 + m.getD (md5g i) 0) % w32
  (d, (b + rotl32 x (md5S.getD i 0)) % w32, b, c)

/-- Process one 64-byte block. -/
def md5Chunk (st : Nat × Nat × Nat × Nat) (block : List Nat) :
    Nat × Nat × Nat × Nat :=
  let m := wordsLE block
  let (a, b, c, d) := (List.range 64).foldl (md5Step m) st
  ((st.1 + a) % w32, (st.2.1 + b) % w32, (st.2.2.1 + c) % w32,
   (st.2.2.2 + d) % w32)

/-- MD5 digest (16 bytes) of a byte list. -/
def md5Bytes (msg : List Nat) : List Nat :=
  let padded := msg ++ mdPadding msg.length ++ len64LE (8 * msg.length)
  let st := (blocks64 padded).foldl md5Chunk
    (0x67452301, 0xefcdab89, 0x98badcfe, 0x10325476)
  wordLEBytes st.1 ++ wordLEBytes st.2.1 ++ wordLEBytes st.2.2.1 ++
    wordLEBytes st.2.2.2

/-! ## SHA-1 (FIPS 180-4) -/

/-- Expand 16 message words into the 80-word SHA-1 schedule. -/
def sha1Schedule (init16 : List Nat) : List Nat :=
  (List.range 64).foldl
    (fun w _ =>
      let n := w.length
      w ++ [rotl32 ((w.getD (n - 3) 0) ^^^ (w.getD (n - 8) 0) ^^^
        (w.getD (n - 14) 0) ^^^ (w.getD (n - 16) 0)) 1])
    init16

/-- SHA-1 round function for round `i`. -/
def sha1f (i b c d : Nat) : Nat :=
  if i < 20 then (b &&& c) ||| (not32 b &&& d)
  else if i < 40 then b ^^^ c ^^^ d
  else if i < 60 then (b &&& c) ||| (b &&& d) ||| (c &&& d)
  else b ^^^ c ^^^ d

/-- SHA-1 round constant for round `i`. -/
def sha1k (i : Nat) : Nat :=
  if i < 20 then 0x5a827999
  else if i < 40 then 0x6ed9eba1
  else if i < 60 then 0x8f1bbcdc
  else 0xca62c1d6

/-- One SHA-1 round on the running state. -/
def sha1Step (w : List Nat) (st : Nat × Nat × Nat × Nat × Nat) (i : Nat) :
    Nat × Nat × Nat × Nat × Nat :=
  let (a, b, c, d, e) := st
  let temp := (rotl32 a 5 + sha1f i b c d + e + sha1k i + w.getD i 0) % w32
  (temp, a, rotl32 b 30, c, d)

/-- Process one 64-byte block. -/
def sha1Chunk (st : Nat × Nat × Nat × Nat × Nat) (block : List Nat) :
    Nat × Nat × Nat × Nat × Nat :=
  let w := sha1Schedule (wordsBE block)
  let (a, b, c, d, e) := (List.range 80).foldl (sha1Step w) st
  ((st.1 + a) % w32, (st.2.1 + b) % w32, (st.2.2.1 + c) % w32,
   (st.2.2.2.1 + d) % w32, (st.2.2.2.2 + e) % w32)

/-- SHA-1 digest (20 bytes) of a byte list. -/
def sha1Bytes (msg : List Nat) : List Nat :=
  let padded := msg ++ mdPadding msg.length ++ len64BE (8 * msg.length)
  let st := (blocks64 padded).foldl sha1Chunk
    (0x67452301, 0xefcdab89, 0x98badcfe, 0x10325476, 0xc3d2e1f0)
  wordBEBytes st.1 ++ wordBEBytes st.2.1 ++ wordBEBytes st.2.2.1 ++
    wordBEBytes st.2.2.2.1 ++ wordBEBytes st.2.2.2.2

/-! ## SHA-256 (FIPS 180-4) -/

/-- The 64 SHA-256 round constants. -/
def sha256K : List Nat :=
  [1116352408, 1899447441, 3049323471, 3921009573,
   961987163, 1508970993, 2453635748, 2870763221,
   3624381080, 310598401, 607225278, 1426881987,
   1925078388, 2162078206, 2614888103, 3248222580,
   3835390401, 4022224774, 264347078, 604807628,
   770255983, 1249150122, 1555081692, 1996064986,
   2554220882, 2821834349, 2952996808, 3210313671,
   3336571891, 3584528711, 113926993, 338241895,
   666307205, 773529912, 1294757372, 1396182291,
   1695183700, 1986661051, 2177026350, 2456956037,
   2730485921, 2820302411, 3259730800, 3345764771,
   3516065817, 3600352804, 4094571909, 275423344,
   430227734, 506948616, 659060556, 883997877,
   958139571, 1322822218, 1537002063, 1747873779,
   1955562222, 2024104815, 2227730452, 2361852424,
   2428436474, 2756734187, 3204031479, 3329325298]

/-- Expand 16 message words into the 64-word SHA-256 schedule. -/
def sha256Schedule (init16 : List Nat) : List Nat :=
  (List.range 48).foldl
    (fun w _ =>
      let n := w.length
      let w15 := w.getD (n - 15) 0
      let w2 := w.getD (n - 2) 0
      let s0 := rotr32 w15 7 ^^^ rotr32 w15 18 ^^^ (w15 >>> 3)
      let s1 := rotr32 w2 17 ^^^ rotr32 w2 19 ^^^ (w2 >>> 10)
      w ++ [(w.getD (n - 16) 0 + s0 + w.getD (n - 7) 0 + s1) % w32])
    init16

/-- One SHA-256 round on the running state (a list of 8 words). -/
def sha256Step (w : List Nat) (st : List Nat) (i : Nat) : List Nat :=
  let a := st.getD 0 0
  let b := st.getD 1 0
  let c := st.getD 2 0
  let d := st.getD 3 0
  let e := st.getD 4 0
  let f := st.getD 5 0
  let g := st.getD 6 0
  let h := st.getD 7 0
  let s1 := rotr32 e 6 ^^^ rotr32 e 11 ^^^ rotr32 e 25
  let ch := (e &&& f) ^^^ (not32 e &&& g)
  let temp1 := (h + s1 + ch + sha256K.getD i 0 + w.getD i 0) % w32
  let s0 := rotr32 a 2 ^^^ rotr32 a 13 ^^^ rotr32 a 22
  let maj := (a &&& b) ^^^ (a &&& c) ^^^ (b &&& c)
  let temp2 := (s0 + maj) % w32
  [(temp1 + temp2) % w32, a, b, c, (d + temp1) % w32, e, f, g]

/-- Process one 64-byte block. -/
def sha256Chunk (st : List Nat) (block : List Nat) : List Nat :=
  let w := sha256Schedule (wordsBE block)
  let fin := (List.range 64).foldl (sha256Step w) st
  (List.range 8).map (fun i => (st.getD i 0 + fin.getD i 0) % w32)

/-- SHA-256 digest (32 bytes) of a byte list. -/
def sha256Bytes (msg : List Nat) : List Nat :=
  let padded := msg ++ mdPadding msg.length ++ len64BE (8 * msg.length)
  let st := (blocks64 padded).foldl sha256Chunk
    [0x6a09e667, 0xbb67ae85, 0x3c6ef372, 0xa54ff53a,
     0x510e527f, 0x9b05688c, 0x1f83d9ab, 0x5be0cd19]
  st.flatMap wordBEBytes

/-! ## HMAC (RFC 2104), as implemented by the `rust-crypto` crate -/

/-- HMAC over a 64-byte-block hash function: a key longer than one block
is first hashed, the key is zero-padded to the block size, and the
digest is `H((key xor opad) ++ H((key xor ipad) ++ msg))`. -/
def hmacBytes (hash : List Nat → List Nat) (key msg : List Nat) :
    List Nat :=
  let k0 := if key.length > 64 then hash key else key
  let k := k0 ++ List.replicate (64 - k0.length) 0
  let ipad := k.map (fun b => b ^^^ 0x36)
  let opad := k.map (fun b => b ^^^ 0x5c)
  hash (opad ++ hash (ipad ++ msg))

/-! ## Hex and UTF-8 encoding -/

/-- Lowercase hex digit for a value below 16. -/
def hexDigitChar (n : Nat) : Char :=
  if n < 10 then Char.ofNat (48 + n) else Char.ofNat (87 + n)

/-- Lowercase hex rendering of a byte list, two digits per byte
(the Rust code's `format_with("", "{:02x}")`). -/
def bytesToHex (l : List Nat) : String :=
  String.mk (l.foldr
    (fun b acc => hexDigitChar (b / 16 % 16) :: hexDigitChar (b % 16) :: acc)
    [])

/-- UTF-8 encoding of one scalar value. -/
def utf8Char (c : Char) : List Nat :=
  let n := c.toNat
  if n < 128 then [n]
  else if n < 2048 then [192 + n / 64, 128 + n % 64]
  else if n < 65536 then
    [224 + n / 4096, 128 + n / 64 % 64, 128 + n % 64]
  else
    [240 + n / 262144, 128 + n / 4096 % 64, 128 + n / 64 % 64, 128 + n % 64]

/-- UTF-8 bytes of a string (Rust's `str::as_bytes`). -/
def utf8Bytes (s : String) : List Nat := s.data.flatMap utf8Char

/-! ## Data model: credentials (src/ucare/mod.rs) -/

/-- Per-project API credentials (`ApiCreds` in src/ucare/mod.rs). -/
structure ApiCreds where
  secret_key : String
  pub_key : String
deriving DecidableEq

/-! ## Header values

`HeaderValue::from_str` (and `str::parse::<HeaderValue>()`) of the http
crate accepts a byte iff it is the horizontal tab or at least 32 and not
127; every use in this repository unwraps the result, so an invalid
value is a panic. -/

/-- Is `s` a valid HTTP header value?  Checked over the UTF-8 bytes,
as the http crate does. -/
def isValidHeaderValue (s : String) : Bool :=
  (utf8Bytes s).all (fun b => b == 9 || (decide (32 ≤ b) && b != 127))

/-! ## REST authentication (src/ucare/rest/auth.rs)

A `reqwest::blocking::Request` is modelled by the request components the
signing code reads and writes: method, URL path and query, optional byte
body, and the three headers involved.  A `HeaderMap` index on a missing
header panics in Rust, so header reads are `Option` and `sign_based`
returns `none` when Content-Type or Date is absent. -/

/-- The request components used by the REST client and its auth
routines. -/
structure RestRequest where
  method : String
  path : String
  query : Option String
  body : Option (List Nat)
  contentType : Option String
  date : Option String
  authorization : Option String
deriving DecidableEq

/-- The Authorization value of the simple REST scheme
(`Uploadcare.Simple <pub_key>:<secret_key>`). -/
def simpleAuthValue (creds : ApiCreds) : String :=
  "Uploadcare.Simple " ++ creds.pub_key ++ ":" ++ creds.secret_key

namespace RestAuth

/-- Routine `simple` of src/ucare/rest/auth.rs: sets the Authorization header to
`Uploadcare.Simple <pub_key>:<secret_key>` through
`auth.parse().unwrap()` — when the credentials make that string an
invalid header value (a control byte in the secret key of a constructed
client) the closure panics (`none`) instead of setting the header. -/
def simple (creds : ApiCreds) (req : RestRequest) : Option RestRequest :=
  let auth := "Uploadcare.Simple " ++ creds.pub_key ++ ":" ++ creds.secret_key
  if isValidHeaderValue auth then
    some { req with authorization := some auth }
  else none

/-- Routine `sign_based` of src/ucare/rest/auth.rs: body bytes are collected
(an absent body contributes no bytes), MD5-hashed to lowercase hex; the
path gets `?query` appended when a query is present; the sign data is
built by successive `push_str` of method, body hash, Content-Type, Date
and path separated by `\n`; the signature is the lowercase-hex HMAC-SHA1
keyed with the secret key.  Reading a missing Content-Type or Date
header panics (`none`).  The final `auth.parse().unwrap()` is modelled
as total: its value embeds only the public key — header-validated when
the client was constructed — and a hex signature, so it cannot fail for
a constructed client. -/
def sign_based (creds : ApiCreds) (req : RestRequest) : Option RestRequest :=
  let body_data : List Nat :=
    match req.body with
    | some bytes => bytes
    | none => []
  let body_hash := bytesToHex (md5Bytes body_data)
  let path :=
    match req.query with
    | some q => req.path ++ "?" ++ q
    | none => req.path
  match req.contentType, req.date with
  | some ct, some date =>
    let sign_data :=
      req.method ++ "\n" ++ body_hash ++ "\n" ++ ct ++ "\n" ++ date ++
        "\n" ++ path
    let signature :=
      bytesToHex (hmacBytes sha1Bytes (utf8Bytes creds.secret_key)
        (utf8Bytes sign_data))
    let auth := "Uploadcare " ++ creds.pub_key ++ ":" ++ signature
    some { req with authorization := some auth }
  | _, _ => none

end RestAuth

/-! ### The REST signature as the specification words it

The spec states the signature is the lowercase-hex HMAC-SHA1, keyed with
the secret key, of the string obtained by joining with newline
characters: the method, the lowercase-hex MD5 of the body bytes (a
missing body hashing as the empty byte string), the Content-Type value,
the Date value, and the URL path with `?` and the query appended when a
query is present.  This definition follows those words, to be compared
with `RestAuth.sign_based` above. -/

/-- Signature string as described by the specification. -/
def specRestSignature (creds : ApiCreds) (method : String)
    (body : Option (List Nat)) (contentType date path : String)
    (query : Option String) : String :=
  bytesToHex (hmacBytes sha1Bytes (utf8Bytes creds.secret_key)
    (utf8Bytes (String.intercalate "\n"
      [method, bytesToHex (md5Bytes (body.getD [])), contentType, date,
       path ++ (match query with | some q => "?" ++ q | none => "")])))

/-- Authorization header value as described by the specification. -/
def specRestAuthorization (creds : ApiCreds) (method : String)
    (body : Option (List Nat)) (contentType date path : String)
    (query : Option String) : String :=
  "Uploadcare " ++ creds.pub_key ++ ":" ++
    specRestSignature creds method body contentType date path query

/-! ## Upload authentication (src/ucare/upload/auth.rs)

`sign_based` reads the system clock; the clock value (seconds since the
Unix epoch) is an explicit argument here.  Rust truncates
`as_secs() as u32`, hence the reduction modulo 2^32. -/

/-- Authentication fields attached to upload forms (`Fields` in
src/ucare/upload/auth.rs). -/
structure Fields where
  pub_key : String
  signature : Option String
  expire : Option Nat
deriving DecidableEq

namespace UploadAuth

/-- Constant `SIGNED_UPLOAD_TTL` of src/ucare/upload/auth.rs. -/
def SIGNED_UPLOAD_TTL : Nat := 60

/-- Routine `get_signature` of src/ucare/upload/auth.rs: lowercase-hex
HMAC-SHA256, keyed with the secret key, of the decimal expire string. -/
def get_signature (secret_key : String) (expire : Nat) : String :=
  bytesToHex (hmacBytes sha256Bytes (utf8Bytes secret_key)
    (utf8Bytes (toString expire)))

/-- Routine `simple` of src/ucare/upload/auth.rs: only the public key. -/
def simple (creds : ApiCreds) : Fields :=
  { pub_key := creds.pub_key, signature := none, expire := none }

/-- Routine `sign_based` of src/ucare/upload/auth.rs: expire is the clock plus
the TTL, truncated to u32; the signature is `get_signature` of it. -/
def sign_based (creds : ApiCreds) (now : Nat) : Fields :=
  let exp := (now + SIGNED_UPLOAD_TTL) % w32
  { pub_key := creds.pub_key,
    signature := some (get_signature creds.secret_key exp),
    expire := some exp }

end UploadAuth

/-! ## Errors (src/ucare/error.rs)

`ErrValue` mirrors the flat enumeration; variants that wrap foreign
error types (`reqwest::Error`, `io::Error`, `serde_json::Error`,
`url::ParseError`) carry the error's message string. -/

/-- The library's flat error enumeration. -/
inductive ErrValue where
  | badRequest (msg : String)
  | unauthorized (msg : String)
  | forbidden (msg : String)
  | notFound (msg : String)
  | notAcceptable (msg : String)
  | payloadTooLarge (msg : String)
  | tooManyRequests (retry_after : Int)
  | reqwest (msg : String)
  | inputOutput (msg : String)
  | serdeJson (msg : String)
  | parseUrl (msg : String)
  | other (msg : String)
deriving DecidableEq

/-- The `Display for ErrValue` rendering: the `Uploadcare: ` marker then the message (or
the retry-after phrase). -/
def ErrValue.display : ErrValue → String
  | .badRequest msg => "Uploadcare: " ++ msg
  | .unauthorized msg => "Uploadcare: " ++ msg
  | .forbidden msg => "Uploadcare: " ++ msg
  | .notFound msg => "Uploadcare: " ++ msg
  | .notAcceptable msg => "Uploadcare: " ++ msg
  | .payloadTooLarge msg => "Uploadcare: " ++ msg
  | .tooManyRequests n =>
    "Uploadcare: too many requests, retry after " ++ toString n
  | .reqwest msg => "Uploadcare: " ++ msg
  | .inputOutput msg => "Uploadcare: " ++ msg
  | .serdeJson msg => "Uploadcare: " ++ msg
  | .parseUrl msg => "Uploadcare: " ++ msg
  | .other msg => "Uploadcare: " ++ msg

/-- Rendering of `Error::to_string()`: `Display for Error` writes `Uploadcare: `
followed by the `Display` of the wrapped `ErrValue`. -/
def errorToString (e : ErrValue) : String := "Uploadcare: " ++ e.display

/-- Does `l` start with `p`? -/
def charListStartsWith : List Char → List Char → Bool
  | [], _ => true
  | _ :: _, [] => false
  | c :: cs, d :: ds => c == d && charListStartsWith cs ds

/-- Does `p` occur contiguously inside `l`? -/
def charListContainsSub (p : List Char) : List Char → Bool
  | [] => charListStartsWith p []
  | d :: ds => charListStartsWith p (d :: ds) || charListContainsSub p ds

/-- Rust's `str::contains("EOF")`: contiguous substring test. -/
def containsEOF (s : String) : Bool :=
  charListContainsSub ['E', 'O', 'F'] s.data

/-! ## Integer parsing (`str::parse::<i32>`) -/

/-- Decimal value of a digit list; `none` when empty or when any
character is not an ASCII digit. -/
def decDigits : List Char → Option Nat
  | [] => none
  | l =>
    l.foldl
      (fun acc c => acc.bind
        (fun n => if c.isDigit then some (n * 10 + (c.toNat - 48)) else none))
      (some 0)

/-- Rust `str::parse::<i32>()`: optional sign, at least one digit, all
digits, value within the i32 range (out-of-range input is an error). -/
def parseI32 (s : String) : Option Int :=
  match s.data with
  | '+' :: rest =>
    (decDigits rest).bind
      (fun n => if n ≤ 2147483647 then some (n : Int) else none)
  | '-' :: rest =>
    (decDigits rest).bind
      (fun n => if n ≤ 2147483648 then some (-(n : Int)) else none)
  | l =>
    (decDigits l).bind
      (fun n => if n ≤ 2147483647 then some (n : Int) else none)

/-! ## Response handling (src/ucare/rest/mod.rs and
src/ucare/upload/mod.rs, `Client::call_url`)

A received HTTP response is its status code, its Retry-After header (if
any), and its body text.  JSON decoding of bodies is passed in as a
function returning `Except String _` (error = decoder message). -/

/-- A received HTTP response, as read by the status-dispatch code. -/
structure HttpResponse where
  status : Nat
  retryAfter : Option String
  body : String
deriving DecidableEq

/-- Status dispatch of the REST client's `call_url`.  `decodeError`
models `res.json::<Error>()` followed by `.detail()`; `decodeR` models
`res.json::<R>()`; a decoder failure propagates as the `Reqwest`
variant (reqwest wraps the serde error).  On 429 the code indexes the
Retry-After header and unwraps an i32 parse; either failure is a panic
(`none`). -/
def restHandleResponse {R : Type} (decodeError : String → Except String String)
    (decodeR : String → Except String R) (res : HttpResponse) :
    Option (Except ErrValue R) :=
  if res.status = 400 then
    some (match decodeError res.body with
      | .ok detail => .error (.badRequest detail)
      | .error msg => .error (.reqwest msg))
  else if res.status = 401 then
    some (match decodeError res.body with
      | .ok detail => .error (.unauthorized detail)
      | .error msg => .error (.reqwest msg))
  else if res.status = 406 then
    some (match decodeError res.body with
      | .ok detail => .error (.notAcceptable detail)
      | .error msg => .error (.reqwest msg))
  else if res.status = 429 then
    match res.retryAfter with
    | none => none
    | some hv =>
      match parseI32 hv with
      | none => none
      | some n => some (.error (.tooManyRequests n))
  else
    some (match decodeR res.body with
      | .ok v => .ok v
      | .error msg => .error (.reqwest msg))

/-- Status dispatch of the upload client's `call_url`.  Error bodies
are returned as text (`text_with_charset`); 429 carries the fixed
retry-after of 30 because the API returns no header; on the fall-through
path a decoder failure whose message contains "EOF" yields the default
value of the result type. -/
def uploadHandleResponse {R : Type} (decodeR : String → Except String R)
    (dflt : R) (res : HttpResponse) : Except ErrValue R :=
  if res.status = 400 then .error (.badRequest res.body)
  else if res.status = 403 then .error (.forbidden res.body)
  else if res.status = 404 then .error (.notFound res.body)
  else if res.status = 413 then .error (.payloadTooLarge res.body)
  else if res.status = 429 then .error (.tooManyRequests 30)
  else
    match decodeR res.body with
    | .ok data => .ok data
    | .error msg =>
      if containsEOF msg then .ok dflt else .error (.reqwest msg)

/-! ## Client construction (src/ucare/rest/mod.rs and
src/ucare/upload/mod.rs, `Client::new`)

The Rust clients store the chosen auth routine as a boxed closure; the
model stores which routine was chosen together with the captured
credentials, and applies it through `applyRestAuth` /
`uploadAuthFields`. -/

/-- REST API version selector. -/
inductive ApiVersion where
  | v05
  | v06
deriving DecidableEq

/-- The `Display for ApiVersion` rendering. -/
def ApiVersion.display : ApiVersion → String
  | .v05 => "v0.5"
  | .v06 => "v0.6"

/-- Constant `CLIENT_VERSION` of src/ucare/mod.rs. -/
def CLIENT_VERSION : String := "0.1.0"

/-- The Accept header value built by the REST `Client::new`
(`application/vnd.uploadcare-<version>+json`). -/
def acceptValue (v : ApiVersion) : String :=
  "application/vnd.uploadcare-" ++ v.display ++ "+json"

/-- The X-UC-User-Agent header value built by the REST `Client::new`:
the `UploadcareRust` user-agent marker, the client version and the
public key, joined by slashes. -/
def userAgentValue (pub_key : String) : String :=
  "UploadcareRust" ++ "/" ++ CLIENT_VERSION ++ "/" ++ pub_key

/-- REST client configuration (`Config` in src/ucare/rest/mod.rs). -/
structure RestConfig where
  sign_based_auth : Bool
  api_version : ApiVersion

/-- Upload client configuration (`Config` in src/ucare/upload/mod.rs). -/
structure UploadConfig where
  sign_based_upload : Bool

/-- The auth closure stored by the REST client. -/
inductive RestAuthScheme where
  | simpleScheme (creds : ApiCreds)
  | signScheme (creds : ApiCreds)
deriving DecidableEq

/-- The auth closure stored by the upload client. -/
inductive UploadAuthScheme where
  | simpleScheme (creds : ApiCreds)
  | signScheme (creds : ApiCreds)
deriving DecidableEq

/-- REST `Client` (the HTTP connection object is irrelevant here). -/
structure RestClient where
  scheme : RestAuthScheme
deriving DecidableEq

/-- Upload `Client`. -/
structure UploadClient where
  scheme : UploadAuthScheme
deriving DecidableEq

/-- Constructor `Client::new` of src/ucare/rest/mod.rs: reject empty
credentials with an `Err`; then build the Accept and X-UC-User-Agent
default headers, each through `HeaderValue::from_str(..).unwrap()` — a
public key with a control byte makes the user-agent value invalid and
the constructor panics (`none`); otherwise install sign-based auth when
`sign_based_auth` is set and simple auth otherwise. -/
def RestClient.new (config : RestConfig) (creds : ApiCreds) :
    Option (Except String RestClient) :=
  if creds.secret_key = "" ∨ creds.pub_key = "" then
    some (.error "Uploadcare: invalid api credentials provided")
  else if isValidHeaderValue (acceptValue config.api_version) then
    if isValidHeaderValue (userAgentValue creds.pub_key) then
      some (.ok { scheme :=
        if config.sign_based_auth then .signScheme creds
        else .simpleScheme creds })
    else none
  else none

/-- Constructor `Client::new` of src/ucare/upload/mod.rs: reject empty credentials,
otherwise install sign-based upload auth when `sign_based_upload` is set
and simple auth otherwise. -/
def UploadClient.new (config : UploadConfig) (creds : ApiCreds) :
    Except String UploadClient :=
  if creds.secret_key = "" ∨ creds.pub_key = "" then
    .error "Uploadcare: invalid api credentials provided"
  else
    .ok { scheme :=
      if config.sign_based_upload then .signScheme creds
      else .simpleScheme creds }

/-- Apply the stored REST auth closure to a request (`none` when the
closure panics). -/
def applyRestAuth : RestAuthScheme → RestRequest → Option RestRequest
  | .simpleScheme creds, req => RestAuth.simple creds req
  | .signScheme creds, req => RestAuth.sign_based creds req

/-- Invoke the stored upload auth closure (`now` is the clock read that
the sign-based routine performs). -/
def uploadAuthFields : UploadAuthScheme → Nat → Fields
  | .simpleScheme creds, _ => UploadAuth.simple creds
  | .signScheme creds, now => UploadAuth.sign_based creds now

/-! ## The single round trip of `call_url`

`Client::call_url` (REST, src/ucare/rest/mod.rs lines 125-183) builds
one request (Date header from the clock, Content-Type
`application/json`, optional body), applies the stored auth closure,
executes it once, and dispatches on the status.  The server is a
function from the sent request to a response; the model returns, next to
the result, the list of requests actually executed. -/

/-- The request assembled by the REST `call_url` before the auth
closure runs: caller's method, path, query and body, Date header from
the clock, Content-Type `application/json`. -/
def restBuiltRequest (method path : String) (query : Option String)
    (body : Option (List Nat)) (dateNow : String) : RestRequest :=
  { method := method, path := path, query := query, body := body,
    contentType := some "application/json", date := some dateNow,
    authorization := none }

/-- REST `Client::call_url`.  `dateNow` is the formatted clock value
placed in the Date header. -/
def restCallUrl {R : Type} (client : RestClient)
    (decodeError : String → Except String String)
    (decodeR : String → Except String R)
    (method path : String) (query : Option String)
    (body : Option (List Nat)) (dateNow : String)
    (server : RestRequest → HttpResponse) :
    Option (Except ErrValue R) × List RestRequest :=
  match applyRestAuth client.scheme
      (restBuiltRequest method path query body dateNow) with
  | none => (none, [])
  | some req =>
    let res := server req
    (restHandleResponse decodeError decodeR res, [req])

/-- Payloads of the upload client (src/ucare/upload/mod.rs): a multipart
form (modelled by its text fields) or a raw byte body. -/
inductive Payload where
  | form (fields : List (String × String))
  | raw (data : List Nat)
deriving DecidableEq

/-- The request the upload client sends. -/
structure UploadHttpRequest where
  method : String
  url : String
  payload : Option Payload
deriving DecidableEq

/-- Upload `Client::call_url` (src/ucare/upload/mod.rs lines 82-137):
builds one request with the optional payload, executes it once, and
dispatches on the status. -/
def uploadCallUrl {R : Type} (decodeR : String → Except String R)
    (dflt : R) (method url : String) (data : Option Payload)
    (server : UploadHttpRequest → HttpResponse) :
    Except ErrValue R × List UploadHttpRequest :=
  let req : UploadHttpRequest := { method := method, url := url, payload := data }
  let res := server req
  (uploadHandleResponse decodeR dflt res, [req])

/-! ## Webhook delete (src/webhook.rs, `Service::delete`) -/

/-- Operation `Service::delete`: forward the error of the underlying call unless
its rendered message contains "EOF"; always answer `Ok(())` otherwise. -/
def webhookDelete (callResult : Except ErrValue String) :
    Except ErrValue Unit :=
  match callResult with
  | .error err =>
    if !(containsEOF (errorToString err)) then .error err else .ok ()
  | .ok _ => .ok ()

/-! ## Upload forms (src/upload.rs) -/

/-- Routine `add_signature_expire` of src/upload.rs: always append
`UPLOADCARE_PUB_KEY` and `pub_key`; when a signature is present, also
append `signature` and `expire`, unwrapping both options (a `Fields`
with a signature but no expire panics: `none`). -/
def add_signature_expire (auth_fields : Fields)
    (form : List (String × String)) : Option (List (String × String)) :=
  let form := form ++
    [("UPLOADCARE_PUB_KEY", auth_fields.pub_key),
     ("pub_key", auth_fields.pub_key)]
  match auth_fields.signature with
  | none => some form
  | some sig =>
    match auth_fields.expire with
    | some exp => some (form ++ [("signature", sig), ("expire", toString exp)])
    | none => none

/-- File storing behaviour (`ToStore` in src/upload.rs); rendered as
`1`, `0` or `auto`. -/
inductive ToStore where
  | yes
  | no
  | auto
deriving DecidableEq

/-- The `Display for ToStore` rendering. -/
def ToStore.display : ToStore → String
  | .yes => "1"
  | .no => "0"
  | .auto => "auto"

/-- Structure `MultipartParams` of src/upload.rs (`size` is u32). -/
structure MultipartParams where
  filename : String
  size : Nat
  content_type : String
  to_store : Option ToStore
deriving DecidableEq

/-- Structure `MultipartData` of src/upload.rs: the presigned part URLs and the
file UUID returned by `multipart_start`. -/
structure MultipartData where
  parts : List String
  uuid : String
deriving DecidableEq

/-- A request issued by the upload service during the multipart flow:
a POST of a form to an API path, or a raw PUT to a presigned URL. -/
inductive UploadRequest where
  | post (path : String) (form : List (String × String))
  | put (url : String) (data : List Nat)
deriving DecidableEq

/-- The form built by `Service::multipart_start`: filename,
`UPLOADCARE_STORE` (defaulting to false), content type and size, then
the auth fields. -/
def multipart_start_form (params : MultipartParams)
    (auth_fields : Fields) : Option (List (String × String)) :=
  let form :=
    [("filename", params.filename),
     ("UPLOADCARE_STORE", (params.to_store.getD ToStore.no).display),
     ("content_type", params.content_type),
     ("size", toString params.size)]
  add_signature_expire auth_fields form

/-- Operation `Service::multipart_start` posts its form to `/multipart/start/`. -/
def multipart_start_req (params : MultipartParams)
    (auth_fields : Fields) : Option UploadRequest :=
  (multipart_start_form params auth_fields).map (.post "/multipart/start/")

/-- Operation `Service::upload_part` PUTs one part's bytes to its presigned
URL. -/
def upload_part_req (url : String) (data : List Nat) : UploadRequest :=
  .put url data

/-- Operation `Service::multipart_complete` posts the uuid plus auth fields to
`/multipart/complete/`. -/
def multipart_complete_req (uuid : String) (auth_fields : Fields) :
    Option UploadRequest :=
  (add_signature_expire auth_fields [("uuid", uuid)]).map
    (.post "/multipart/complete/")

/-! ## The file-splitting loop (tests/upload.rs, `get_file_chunks`)

Each iteration reads up to `chunk_size` bytes; a read of zero bytes
(end of file) stops without pushing a chunk, a short read pushes the
final chunk and stops.  Structural recursion on a fuel argument (the
file length) so that the kernel can evaluate it. -/

/-- The fixed part size of 5 MB (5242880 bytes). -/
def chunk_size : Nat := 5242880

/-- The chunking loop; `fuel` bounds the number of iterations. -/
def get_file_chunks_aux : Nat → List Nat → List (List Nat)
  | _, [] => []
  | 0, _ :: _ => []
  | fuel + 1, b :: rest =>
    ((b :: rest).take chunk_size) ::
      get_file_chunks_aux fuel ((b :: rest).drop chunk_size)

/-- Loop `get_file_chunks`: split a file's bytes into 5 MB parts (the last
may be shorter; an empty file yields no parts). -/
def get_file_chunks (file : List Nat) : List (List Nat) :=
  get_file_chunks_aux file.length file

/-! ## The multipart upload flow (tests/upload.rs, `multipart`)

Start the transaction, upload one chunk per presigned part URL (the
test driver pops the next chunk for each URL, panicking if the chunks
run out), then complete the transaction with the returned uuid. -/

/-- The per-part upload loop: one PUT per presigned URL, consuming the
chunks in order. -/
def upload_parts_loop : List String → List (List Nat) →
    Option (List UploadRequest)
  | [], _ => some []
  | _ :: _, [] => none
  | url :: urls, c :: cs =>
    (upload_parts_loop urls cs).map (fun r => upload_part_req url c :: r)

/-- The whole multipart flow as the sequence of requests it issues:
the start POST, the part PUTs, the completing POST. -/
def multipart_flow (params : MultipartParams) (auth_fields : Fields)
    (file : List Nat) (started : MultipartData) :
    Option (List UploadRequest) :=
  match multipart_start_req params auth_fields with
  | none => none
  | some startReq =>
    match upload_parts_loop started.parts (get_file_chunks file) with
    | none => none
    | some partReqs =>
      match multipart_complete_req started.uuid auth_fields with
      | none => none
      | some compReq => some (startReq :: partReqs ++ [compReq])

/-! ## Concrete instances used in witnesses and counterexamples -/

/-- The credentials of the repository's `rest/auth.rs` unit test. -/
def demoCreds : ApiCreds :=
  { secret_key := "demoprivatekey", pub_key := "testpk" }

/-- The request of the repository's `rest/auth.rs` unit test. -/
def demoReq : RestRequest where
  method := "GET"
  path := "/files/"
  query := some "limit=1&stored=true"
  body := none
  contentType := some "application/json"
  date := some "Mon, 05 Nov 2018 13:14:41 GMT"
  authorization := none

/-- A decoder that succeeds with the body itself (for concrete
instantiations). -/
def decodeId : String → Except String String := fun s => Except.ok s

/-- A decoder that fails with the body as its message (for concrete
instantiations). -/
def decodeFail : String → Except String String := fun s => Except.error s

/-- Concrete multipart parameters for the C4 witness. -/
def wParams : MultipartParams :=
  { filename := "f.bin", size := 3,
    content_type := "application/octet-stream", to_store := none }

/-- Concrete auth fields (simple scheme) for the C4 witness. -/
def wFields : Fields := { pub_key := "pk", signature := none, expire := none }

/-- Concrete start-transaction response for the C4 witness. -/
def wStarted : MultipartData := { parts := ["u1"], uuid := "id1" }

/-- A constant REST server for concrete instantiations. -/
def constServer : RestRequest → HttpResponse :=
  fun _ => { status := 200, retryAfter := none, body := "null" }

/-- A constant upload server for concrete instantiations. -/
def constUploadServer : UploadHttpRequest → HttpResponse :=
  fun _ => { status := 200, retryAfter := none, body := "null" }

/-- A concrete REST client with the simple scheme installed. -/
def demoClient : RestClient := { scheme := RestAuthScheme.simpleScheme demoCreds }

/-- Credentials whose secret key contains a control byte: nonempty (so
construction accepts them — only the public key reaches a header there)
but making the simple scheme's Authorization value an invalid header
value. -/
def ctrlCreds : ApiCreds := { secret_key := "s\nk", pub_key := "pk" }

/-- A constructible REST client whose simple auth closure panics. -/
def ctrlClient : RestClient := { scheme := RestAuthScheme.simpleScheme ctrlCreds }

/-! # Claims -/

/-! ## Validation of the hash primitives against the repository's unit tests -/

theorem md5_empty_digest :
    bytesToHex (md5Bytes []) = "d41d8cd98f00b204e9800998ecf8427e" := by
  decide

theorem sha1_empty_digest :
    bytesToHex (sha1Bytes []) =
      "da39a3ee5e6b4b0d3255bfef95601890afd80709" := by
  decide

theorem sha256_empty_digest :
    bytesToHex (sha256Bytes []) =
      "e3b0c44298fc1c149afbf4c8996fb92427ae41e4649b934ca495991b7852b855" := by
  decide

/-- The unit test of src/ucare/upload/auth.rs reproduced: HMAC-SHA256 of
the fixed timestamp under the demo secret key. -/
theorem upload_get_signature_test_vector :
    UploadAuth.get_signature "project_secret_key" 1454903856 =
      "d39a461d41f607338abffee5f31da4d4e46535651c87346e76906bf75c064d47" := by
  decide

/-! ## C1: the REST sign-based Authorization header -/

/-- The five sign-data components joined by `\n` coincide with the
successive `push_str` construction of the Rust code. -/
theorem intercalate_newline_five (a b c d e : String) :
    String.intercalate "\n" [a, b, c, d, e] =
      a ++ "\n" ++ b ++ "\n" ++ c ++ "\n" ++ d ++ "\n" ++ e := rfl

/-- C1: For every REST request that carries Content-Type and Date
headers, the sign-based authentication routine sets the Authorization
header to `Uploadcare <pub_key>:<sig>`, where `<sig>` is the
lowercase-hex HMAC-SHA1, keyed with the secret key, of the string
obtained by joining with newline characters: the HTTP method, the
lowercase-hex MD5 of the request body bytes (a missing body hashing as
the empty byte string), the Content-Type header value, the Date header
value, and the URL path with `?` and the query appended when a query is
present. -/
theorem rest_sign_based_matches_spec (creds : ApiCreds) (req : RestRequest)
    (ct date : String) (hct : req.contentType = some ct)
    (hd : req.date = some date) :
    RestAuth.sign_based creds req =
      some { req with authorization := some (specRestAuthorization creds
        req.method req.body ct date req.path req.query) } := by
  cases hb : req.body <;> cases hq : req.query <;>
    simp [RestAuth.sign_based, specRestAuthorization, specRestSignature,
      hct, hd, hb, hq, intercalate_newline_five, Option.getD] <;>
    simp [String.append_assoc]

/-- Witness for C1, reproducing the repository's own
`rest/auth.rs::tests::test_sign_based` vector. -/
theorem rest_sign_based_matches_spec_witness :
    RestAuth.sign_based demoCreds demoReq =
      some { demoReq with
               authorization := some "Uploadcare testpk:3cbc4d2cf91f80c1ba162b926f8a975e8bec7995" } := by
  rw [rest_sign_based_matches_spec demoCreds demoReq "application/json"
    "Mon, 05 Nov 2018 13:14:41 GMT" rfl rfl]
  decide

/-! ## C2: determinism of the signing routines

The REST routine is a pure function of the request components.  The
upload sign-based routine, however, reads the system clock: two
invocations with identical credentials (and there is no request input
at all) made one second apart produce different expire values and hence
different authentication fields, so the claim as stated fails. -/

/-- Counterexample to C2: the upload sign-based routine invoked twice
with the same credentials (and the same — empty — request data) at
clock readings 0 and 1 produces different authentication fields. -/
theorem upload_sign_based_clock_dependent :
    UploadAuth.sign_based { secret_key := "sk", pub_key := "pk" } 0 ≠
      UploadAuth.sign_based { secret_key := "sk", pub_key := "pk" } 1 := by
  intro h
  have h2 := congrArg Fields.expire h
  simp [UploadAuth.sign_based, UploadAuth.SIGNED_UPLOAD_TTL, w32] at h2

/-- C2 as amended: the REST sign-based routine is deterministic over its
explicit inputs — invocations with the same credentials on requests that
agree on method, body bytes, Content-Type, Date, path and query produce
the identical Authorization value; the upload sign-based routine is
deterministic over its credentials and the clock reading it performs —
only invocations at the same clock second are guaranteed identical
fields. -/
theorem signing_routines_deterministic :
    (∀ (creds : ApiCreds) (r1 r2 : RestRequest),
      r1.method = r2.method → r1.body = r2.body →
      r1.contentType = r2.contentType → r1.date = r2.date →
      r1.path = r2.path → r1.query = r2.query →
      (RestAuth.sign_based creds r1).bind RestRequest.authorization =
        (RestAuth.sign_based creds r2).bind RestRequest.authorization) ∧
    (∀ (creds : ApiCreds) (t1 t2 : Nat), t1 = t2 →
      UploadAuth.sign_based creds t1 = UploadAuth.sign_based creds t2) := by
  constructor
  · intro creds r1 r2 hm hb hct hd hp hq
    obtain ⟨m1, p1, q1, b1, ct1, d1, a1⟩ := r1
    obtain ⟨m2, p2, q2, b2, ct2, d2, a2⟩ := r2
    simp only at hm hb hct hd hp hq
    subst hm hb hct hd hp hq
    cases ct1 <;> cases d1 <;> rfl
  · intro creds t1 t2 h
    rw [h]

/-- Witness for the amended C2 at concrete inputs: two requests that
agree on the signed components but differ in their initial
Authorization header sign identically, and two upload invocations at
the same clock second agree. -/
theorem signing_routines_deterministic_witness :
    (RestAuth.sign_based demoCreds demoReq).bind RestRequest.authorization =
      (RestAuth.sign_based demoCreds
        { demoReq with authorization := some "stale" }).bind
        RestRequest.authorization ∧
    UploadAuth.sign_based demoCreds 5 = UploadAuth.sign_based demoCreds 5 :=
  ⟨signing_routines_deterministic.1 demoCreds demoReq
      { demoReq with authorization := some "stale" }
      rfl rfl rfl rfl rfl rfl,
    signing_routines_deterministic.2 demoCreds 5 5 rfl⟩

/-! ## C3: status-code-to-error mapping

The two clients map different status sets.  The REST dispatch handles
400, 401, 406 and 429 only: 403, 404 and 413 fall through to the JSON
deserialization arm, so the REST client does not return `Forbidden`,
`NotFound` or `PayloadTooLarge` for them.  Symmetrically the upload
dispatch handles 400, 403, 404, 413 and 429, and 401 falls through. -/

/-- Counterexample to C3: a REST response with status 403 (forbidden) is
not mapped to the `Forbidden` error variant — with a decoder that
accepts the body, the call returns `Ok` with the decoded body. -/
theorem rest_403_not_mapped_to_forbidden :
    restHandleResponse decodeId decodeId
      { status := 403, retryAfter := none, body := "denied" } =
      some (Except.ok "denied") := rfl

/-- C3 as amended: the REST client maps 400 to `BadRequest`, 401 to
`Unauthorized`, 406 to `NotAcceptable` and 429 to `TooManyRequests`
(with the parsed Retry-After header); the upload client maps 400 to
`BadRequest`, 403 to `Forbidden`, 404 to `NotFound`, 413 to
`PayloadTooLarge` and 429 to `TooManyRequests`; in both clients every
other status (including 403/404/413 for REST and 401 for upload) goes
to the response-body deserialization arm, and a deserialization failure
there surfaces as the `Reqwest` error variant (for upload, unless its
message contains "EOF").  All errors are returned as `Err`. -/
theorem status_code_error_mapping {R : Type}
    (de : String → Except String String) (dr : String → Except String R)
    (dflt : R) (res : HttpResponse) :
    (∀ d, res.status = 400 → de res.body = .ok d →
      restHandleResponse de dr res = some (.error (.badRequest d))) ∧
    (∀ d, res.status = 401 → de res.body = .ok d →
      restHandleResponse de dr res = some (.error (.unauthorized d))) ∧
    (∀ d, res.status = 406 → de res.body = .ok d →
      restHandleResponse de dr res = some (.error (.notAcceptable d))) ∧
    (∀ s n, res.status = 429 → res.retryAfter = some s →
      parseI32 s = some n →
      restHandleResponse de dr res = some (.error (.tooManyRequests n))) ∧
    (∀ v, res.status ≠ 400 → res.status ≠ 401 → res.status ≠ 406 →
      res.status ≠ 429 → dr res.body = .ok v →
      restHandleResponse de dr res = some (.ok v)) ∧
    (∀ m, res.status ≠ 400 → res.status ≠ 401 → res.status ≠ 406 →
      res.status ≠ 429 → dr res.body = .error m →
      restHandleResponse de dr res = some (.error (.reqwest m))) ∧
    (res.status = 400 →
      uploadHandleResponse dr dflt res = .error (.badRequest res.body)) ∧
    (res.status = 403 →
      uploadHandleResponse dr dflt res = .error (.forbidden res.body)) ∧
    (res.status = 404 →
      uploadHandleResponse dr dflt res = .error (.notFound res.body)) ∧
    (res.status = 413 →
      uploadHandleResponse dr dflt res = .error (.payloadTooLarge res.body)) ∧
    (res.status = 429 →
      uploadHandleResponse dr dflt res = .error (.tooManyRequests 30)) ∧
    (∀ m, res.status ≠ 400 → res.status ≠ 403 → res.status ≠ 404 →
      res.status ≠ 413 → res.status ≠ 429 → dr res.body = .error m →
      containsEOF m = false →
      uploadHandleResponse dr dflt res = .error (.reqwest m)) := by
  refine ⟨?_, ?_, ?_, ?_, ?_, ?_, ?_, ?_, ?_, ?_, ?_, ?_⟩
  · intro d h hde; simp [restHandleResponse, h, hde]
  · intro d h hde; simp [restHandleResponse, h, hde]
  · intro d h hde; simp [restHandleResponse, h, hde]
  · intro s n h hra hp; simp [restHandleResponse, h, hra, hp]
  · intro v h1 h2 h3 h4 hdr
    simp [restHandleResponse, h1, h2, h3, h4, hdr]
  · intro m h1 h2 h3 h4 hdr
    simp [restHandleResponse, h1, h2, h3, h4, hdr]
  · intro h; simp [uploadHandleResponse, h]
  · intro h; simp [uploadHandleResponse, h]
  · intro h; simp [uploadHandleResponse, h]
  · intro h; simp [uploadHandleResponse, h]
  · intro h; simp [uploadHandleResponse, h]
  · intro m h1 h2 h3 h4 h5 hdr heof
    simp [uploadHandleResponse, h1, h2, h3, h4, h5, hdr, heof]

/-- Witness for the amended C3, exercising the mapped and fall-through
arms at concrete responses. -/
theorem status_code_error_mapping_witness :
    restHandleResponse decodeId decodeId
      { status := 400, retryAfter := none, body := "bad params" } =
      some (.error (.badRequest "bad params")) ∧
    restHandleResponse decodeId decodeId
      { status := 429, retryAfter := some "15", body := "" } =
      some (.error (.tooManyRequests 15)) ∧
    uploadHandleResponse decodeId "" { status := 404, retryAfter := none, body := "missing" } =
      .error (.notFound "missing") ∧
    uploadHandleResponse decodeFail "" { status := 401, retryAfter := none, body := "denied" } =
      .error (.reqwest "denied") := by
  refine ⟨?_, ?_, ?_, ?_⟩
  · exact (status_code_error_mapping decodeId decodeId ""
      { status := 400, retryAfter := none, body := "bad params" }).1
      "bad params" rfl rfl
  · exact (status_code_error_mapping decodeId decodeId ""
      { status := 429, retryAfter := some "15", body := "" }).2.2.2.1
      "15" 15 rfl rfl (by decide)
  · exact (status_code_error_mapping decodeId decodeId ""
      { status := 404, retryAfter := none, body := "missing" }).2.2.2.2.2.2.2.2.1
      rfl
  · exact (status_code_error_mapping decodeId decodeFail ""
      { status := 401, retryAfter := none, body := "denied" }).2.2.2.2.2.2.2.2.2.2.2
      "denied" (by decide) (by decide) (by decide) (by decide) (by decide)
      rfl (by decide)

/-! ## C4: the multipart upload flow -/

/-- Applying `add_signature_expire` with no signature appends only the two
public-key fields. -/
theorem add_signature_expire_of_none (f : Fields)
    (form : List (String × String)) (h : f.signature = none) :
    add_signature_expire f form =
      some (form ++ [("UPLOADCARE_PUB_KEY", f.pub_key), ("pub_key", f.pub_key)]) := by
  simp [add_signature_expire, h]

/-- Applying `add_signature_expire` with signature and expire both present
appends the two public-key fields and then signature and expire. -/
theorem add_signature_expire_of_some (f : Fields)
    (form : List (String × String)) (sig : String) (exp : Nat)
    (hs : f.signature = some sig) (he : f.expire = some exp) :
    add_signature_expire f form =
      some ((form ++ [("UPLOADCARE_PUB_KEY", f.pub_key), ("pub_key", f.pub_key)]) ++
        [("signature", sig), ("expire", toString exp)]) := by
  simp [add_signature_expire, hs, he]

/-- Under the both-present-or-both-absent invariant,
`add_signature_expire` never panics. -/
theorem add_signature_expire_isSome (f : Fields)
    (form : List (String × String))
    (h : f.signature.isSome = f.expire.isSome) :
    (add_signature_expire f form).isSome := by
  cases hs : f.signature <;> cases he : f.expire <;>
    simp [hs, he] at h ⊢ <;>
    simp [add_signature_expire, hs, he]

/-- The chunking loop reassembles the file: concatenating the chunks
gives back exactly the input bytes. -/
theorem get_file_chunks_aux_flatten :
    ∀ (fuel : Nat) (l : List Nat), l.length ≤ fuel →
      (get_file_chunks_aux fuel l).flatten = l := by
  intro fuel
  induction fuel with
  | zero =>
    intro l h
    cases l with
    | nil => rfl
    | cons b t => simp at h
  | succ n ih =>
    intro l h
    cases l with
    | nil => rfl
    | cons b t =>
      rw [get_file_chunks_aux, List.flatten_cons, ih]
      · exact List.take_append_drop chunk_size (b :: t)
      · rw [List.length_drop]
        simp only [List.length_cons] at h ⊢
        simp [chunk_size]
        omega

/-- Every chunk is nonempty and at most `chunk_size` bytes. -/
theorem get_file_chunks_aux_sizes :
    ∀ (fuel : Nat) (l : List Nat), l.length ≤ fuel →
      ∀ c ∈ get_file_chunks_aux fuel l, 0 < c.length ∧ c.length ≤ chunk_size := by
  intro fuel
  induction fuel with
  | zero =>
    intro l h c hc
    cases l with
    | nil => simp [get_file_chunks_aux] at hc
    | cons b t => simp at h
  | succ n ih =>
    intro l h c hc
    cases l with
    | nil => simp [get_file_chunks_aux] at hc
    | cons b t =>
      rw [get_file_chunks_aux, List.mem_cons] at hc
      rcases hc with hc | hc
      · subst hc
        rw [List.length_take]
        simp only [List.length_cons]
        constructor
        · simp [chunk_size]
        · exact min_le_left _ _
      · refine ih _ ?_ c hc
        rw [List.length_drop]
        simp only [List.length_cons] at h ⊢
        simp [chunk_size]
        omega

/-- Every chunk except the last has exactly `chunk_size` bytes. -/
theorem get_file_chunks_aux_dropLast :
    ∀ (fuel : Nat) (l : List Nat), l.length ≤ fuel →
      ∀ c ∈ (get_file_chunks_aux fuel l).dropLast, c.length = chunk_size := by
  intro fuel
  induction fuel with
  | zero =>
    intro l h c hc
    cases l with
    | nil => simp [get_file_chunks_aux] at hc
    | cons b t => simp at h
  | succ n ih =>
    intro l h c hc
    cases l with
    | nil => simp [get_file_chunks_aux] at hc
    | cons b t =>
      rw [get_file_chunks_aux] at hc
      cases hr : get_file_chunks_aux n ((b :: t).drop chunk_size) with
      | nil => rw [hr] at hc; simp at hc
      | cons r rs =>
        rw [hr, List.dropLast_cons₂, List.mem_cons] at hc
        have hd : (b :: t).drop chunk_size ≠ [] := by
          intro hnil
          rw [hnil] at hr
          simp [get_file_chunks_aux] at hr
        have hlen : chunk_size < (b :: t).length := by
          by_contra hle
          push_neg at hle
          exact hd (List.drop_eq_nil_of_le hle)
        rcases hc with hc | hc
        · subst hc
          rw [List.length_take]
          omega
        · have hdl : ((b :: t).drop chunk_size).length ≤ n := by
            rw [List.length_drop]
            simp only [List.length_cons] at h ⊢
            simp [chunk_size] at hlen ⊢
            omega
          have := ih _ hdl c
          rw [hr] at this
          exact this hc

/-- The test driver's part loop: with as many chunks as presigned URLs
it issues exactly one PUT per URL, pairing URLs with chunks in order. -/
theorem upload_parts_loop_zip :
    ∀ (urls : List String) (cs : List (List Nat)),
      urls.length = cs.length →
      upload_parts_loop urls cs =
        some ((urls.zip cs).map (fun uc => upload_part_req uc.1 uc.2)) := by
  intro urls
  induction urls with
  | nil => intro cs h; simp [upload_parts_loop]
  | cons u us ih =>
    intro cs h
    cases cs with
    | nil => simp at h
    | cons c cs' =>
      simp only [List.length_cons] at h
      rw [List.zip_cons_cons, upload_parts_loop, ih cs' (by omega)]
      simp

/-- C4: the multipart upload flow splits the file into fixed-size parts
and performs the multi-step transaction: it issues the start POST, then
one PUT per presigned part URL carrying the successive chunks, then the
completing POST with the transaction's uuid; the chunks reassemble to
the file, each chunk is nonempty and at most 5 MB, and every chunk
except the last is exactly 5 MB. -/
theorem multipart_flow_structure (params : MultipartParams)
    (auth_fields : Fields) (file : List Nat) (started : MultipartData)
    (hinv : auth_fields.signature.isSome = auth_fields.expire.isSome)
    (hparts : started.parts.length = (get_file_chunks file).length) :
    (multipart_start_req params auth_fields).isSome ∧
    (multipart_complete_req started.uuid auth_fields).isSome ∧
    multipart_flow params auth_fields file started =
      (multipart_start_req params auth_fields).bind (fun startReq =>
        (multipart_complete_req started.uuid auth_fields).map (fun compReq =>
          startReq ::
            (started.parts.zip (get_file_chunks file)).map
              (fun uc => upload_part_req uc.1 uc.2) ++ [compReq])) ∧
    (get_file_chunks file).flatten = file ∧
    (∀ c ∈ get_file_chunks file, 0 < c.length ∧ c.length ≤ chunk_size) ∧
    (∀ c ∈ (get_file_chunks file).dropLast, c.length = chunk_size) := by
  have hstart : (multipart_start_req params auth_fields).isSome := by
    unfold multipart_start_req multipart_start_form
    cases hx : add_signature_expire auth_fields
      [("filename", params.filename),
       ("UPLOADCARE_STORE", (params.to_store.getD ToStore.no).display),
       ("content_type", params.content_type),
       ("size", toString params.size)] with
    | none =>
      have := add_signature_expire_isSome auth_fields
        [("filename", params.filename),
         ("UPLOADCARE_STORE", (params.to_store.getD ToStore.no).display),
         ("content_type", params.content_type),
         ("size", toString params.size)] hinv
      rw [hx] at this
      simp at this
    | some v => simp [hx]
  have hcomp : (multipart_complete_req started.uuid auth_fields).isSome := by
    unfold multipart_complete_req
    cases hx : add_signature_expire auth_fields [("uuid", started.uuid)] with
    | none =>
      have := add_signature_expire_isSome auth_fields
        [("uuid", started.uuid)] hinv
      rw [hx] at this
      simp at this
    | some v => simp [hx]
  refine ⟨hstart, hcomp, ?_, ?_, ?_, ?_⟩
  · obtain ⟨s, hs⟩ := Option.isSome_iff_exists.mp hstart
    obtain ⟨c, hc⟩ := Option.isSome_iff_exists.mp hcomp
    rw [multipart_flow, hs, upload_parts_loop_zip _ _ hparts, hc]
    simp
  · exact get_file_chunks_aux_flatten file.length file (le_refl _)
  · exact get_file_chunks_aux_sizes file.length file (le_refl _)
  · exact get_file_chunks_aux_dropLast file.length file (le_refl _)

/-- Witness for C4 at a concrete three-byte file with one part URL. -/
theorem multipart_flow_structure_witness :
    (multipart_start_req wParams wFields).isSome ∧
    (multipart_complete_req wStarted.uuid wFields).isSome ∧
    multipart_flow wParams wFields [1, 2, 3] wStarted =
      (multipart_start_req wParams wFields).bind (fun startReq =>
        (multipart_complete_req wStarted.uuid wFields).map (fun compReq =>
          startReq ::
            (wStarted.parts.zip (get_file_chunks [1, 2, 3])).map
              (fun uc => upload_part_req uc.1 uc.2) ++ [compReq])) ∧
    (get_file_chunks [1, 2, 3]).flatten = [1, 2, 3] ∧
    (∀ c ∈ get_file_chunks [1, 2, 3], 0 < c.length ∧ c.length ≤ chunk_size) ∧
    (∀ c ∈ (get_file_chunks [1, 2, 3]).dropLast, c.length = chunk_size) :=
  multipart_flow_structure wParams wFields [1, 2, 3] wStarted rfl (by decide)

/-! ## C5: selection between the two authentication schemes

Scheme selection is exactly as claimed, but the simple REST closure
inserts its Authorization value through `auth.parse().unwrap()`
(rest/auth.rs line 25).  Construction header-validates only the public
key, so a constructed client whose secret key contains a control byte
panics in the closure instead of setting the header: the claim's
universally quantified simple-header clause fails. -/

/-- Counterexample to C5: the credentials `ctrlCreds` (secret key
`"s\nk"`, public key `"pk"`) pass construction — `Client::new` returns
`Ok` with the simple scheme installed — yet the simple closure panics
(`none`) on them instead of setting the Authorization header to
`Uploadcare.Simple pk:s\nk`. -/
theorem rest_simple_auth_control_byte_panics :
    RestClient.new { sign_based_auth := false, api_version := ApiVersion.v05 }
        ctrlCreds =
      some (Except.ok { scheme := RestAuthScheme.simpleScheme ctrlCreds }) ∧
    RestAuth.simple ctrlCreds demoReq = none := by
  constructor
  · rfl
  · decide

/-- C5 as amended: each `Client::new` selects between exactly two
authentication schemes — sign-based when the configuration flag
(`sign_based_auth` for REST, `sign_based_upload` for upload) is true
and simple otherwise; the simple upload scheme produces authentication
fields containing only the public key; the simple REST scheme sets the
Authorization header to `Uploadcare.Simple <pub_key>:<secret_key>`
whenever that string is a valid header value (every byte a tab, or at
least 32 and not 127), and panics instead when a credential makes it
invalid. -/
theorem client_new_selects_auth_scheme (rcfg : RestConfig)
    (ucfg : UploadConfig) (creds : ApiCreds) (req : RestRequest) :
    (∀ c, RestClient.new rcfg creds = some (.ok c) →
      c.scheme = if rcfg.sign_based_auth then RestAuthScheme.signScheme creds
        else RestAuthScheme.simpleScheme creds) ∧
    (∀ c, UploadClient.new ucfg creds = .ok c →
      c.scheme = if ucfg.sign_based_upload then UploadAuthScheme.signScheme creds
        else UploadAuthScheme.simpleScheme creds) ∧
    (isValidHeaderValue (simpleAuthValue creds) = true →
      RestAuth.simple creds req =
        some { req with authorization := some (simpleAuthValue creds) }) ∧
    (isValidHeaderValue (simpleAuthValue creds) = false →
      RestAuth.simple creds req = none) ∧
    UploadAuth.simple creds =
      { pub_key := creds.pub_key, signature := none, expire := none } := by
  refine ⟨?_, ?_, ?_, ?_, rfl⟩
  · intro c hc
    unfold RestClient.new at hc
    by_cases h : creds.secret_key = "" ∨ creds.pub_key = ""
    · simp [h] at hc
    · rw [if_neg h] at hc
      cases ha : isValidHeaderValue (acceptValue rcfg.api_version) <;>
        rw [ha] at hc
      · simp at hc
      · cases hu : isValidHeaderValue (userAgentValue creds.pub_key) <;>
          rw [hu] at hc
        · simp at hc
        · simp at hc
          rw [← hc]
  · intro c hc
    unfold UploadClient.new at hc
    by_cases h : creds.secret_key = "" ∨ creds.pub_key = ""
    · simp [h] at hc
    · simp [h] at hc
      rw [← hc]
  · intro hv
    simp only [simpleAuthValue] at hv ⊢
    simp [RestAuth.simple, hv]
  · intro hv
    simp only [simpleAuthValue] at hv
    simp [RestAuth.simple, hv]

/-- Witness for the amended C5 at concrete configurations and
credentials: the sign-based flag installs the sign scheme, the cleared
flag installs the simple scheme, and the simple schemes produce the
stated header (valid for the demo credentials) and fields. -/
theorem client_new_selects_auth_scheme_witness :
    RestAuthScheme.signScheme demoCreds =
      (if true then RestAuthScheme.signScheme demoCreds
        else RestAuthScheme.simpleScheme demoCreds) ∧
    UploadAuthScheme.simpleScheme demoCreds =
      (if false then UploadAuthScheme.signScheme demoCreds
        else UploadAuthScheme.simpleScheme demoCreds) ∧
    RestAuth.simple demoCreds demoReq =
      some { demoReq with
               authorization := some "Uploadcare.Simple testpk:demoprivatekey" } ∧
    UploadAuth.simple demoCreds =
      { pub_key := "testpk", signature := none, expire := none } := by
  obtain ⟨h1, h2, h3, -, h5⟩ := client_new_selects_auth_scheme
    { sign_based_auth := true, api_version := ApiVersion.v05 }
    { sign_based_upload := false } demoCreds demoReq
  refine ⟨?_, ?_, ?_, ?_⟩
  · exact h1 { scheme := RestAuthScheme.signScheme demoCreds } rfl
  · exact h2 { scheme := UploadAuthScheme.simpleScheme demoCreds } rfl
  · rw [h3 (by decide)]; decide
  · rw [h5]; decide

/-! ## C8: credential validation in `Client::new`

Both constructors reject empty credentials with the exact error string,
and the upload constructor returns Ok for all other credentials.  The
REST constructor additionally builds its two default headers through
`HeaderValue::from_str(..).unwrap()` (rest/mod.rs lines 69-88); the
X-UC-User-Agent value embeds the public key, so a nonempty public key
containing a control byte panics the constructor instead of returning
Ok. -/

/-- The Accept header value built by the REST constructor is a valid
header value for every API version. -/
theorem acceptValue_valid (v : ApiVersion) :
    isValidHeaderValue (acceptValue v) = true := by
  cases v <;> decide

/-- Counterexample to C8: nonempty credentials whose public key contains
a control byte make `RestClient::new` panic (`none`) while building the
X-UC-User-Agent header, instead of returning Ok with a constructed
client. -/
theorem rest_new_control_byte_pub_key_panics :
    RestClient.new { sign_based_auth := false, api_version := ApiVersion.v06 }
      { secret_key := "sk", pub_key := "a\nb" } = none := rfl

/-- C8 as amended: both constructors return the error string
`Uploadcare: invalid api credentials provided` exactly when the secret
key or the public key is the empty string; `UploadClient::new` returns
Ok with a constructed client for all other credentials; so does
`RestClient::new` when additionally the X-UC-User-Agent value embedding
the public key is a valid header value, while a nonempty public key
with a control byte makes it panic instead of returning. -/
theorem client_new_credential_validation (rcfg : RestConfig)
    (ucfg : UploadConfig) (creds : ApiCreds) :
    (RestClient.new rcfg creds =
        some (.error "Uploadcare: invalid api credentials provided") ↔
      creds.secret_key = "" ∨ creds.pub_key = "") ∧
    (UploadClient.new ucfg creds =
        .error "Uploadcare: invalid api credentials provided" ↔
      creds.secret_key = "" ∨ creds.pub_key = "") ∧
    (creds.secret_key ≠ "" → creds.pub_key ≠ "" →
      isValidHeaderValue (userAgentValue creds.pub_key) = true →
      ∃ c, RestClient.new rcfg creds = some (.ok c)) ∧
    (creds.secret_key ≠ "" → creds.pub_key ≠ "" →
      isValidHeaderValue (userAgentValue creds.pub_key) = false →
      RestClient.new rcfg creds = none) ∧
    (creds.secret_key ≠ "" → creds.pub_key ≠ "" →
      ∃ c, UploadClient.new ucfg creds = .ok c) := by
  refine ⟨?_, ?_, ?_, ?_, ?_⟩
  · unfold RestClient.new
    by_cases h : creds.secret_key = "" ∨ creds.pub_key = ""
    · simp [h]
    · rw [if_neg h]
      cases hu : isValidHeaderValue (userAgentValue creds.pub_key) <;>
        simp [acceptValue_valid, hu, h]
  · unfold UploadClient.new
    by_cases h : creds.secret_key = "" ∨ creds.pub_key = "" <;> simp [h]
  · intro hs hp hu
    have h : ¬(creds.secret_key = "" ∨ creds.pub_key = "") := by
      intro hor
      rcases hor with hor | hor
      · exact hs hor
      · exact hp hor
    refine ⟨{ scheme :=
        if rcfg.sign_based_auth then RestAuthScheme.signScheme creds
        else RestAuthScheme.simpleScheme creds }, ?_⟩
    unfold RestClient.new
    rw [if_neg h]
    simp [acceptValue_valid, hu]
  · intro hs hp hu
    have h : ¬(creds.secret_key = "" ∨ creds.pub_key = "") := by
      intro hor
      rcases hor with hor | hor
      · exact hs hor
      · exact hp hor
    unfold RestClient.new
    rw [if_neg h]
    simp [acceptValue_valid, hu]
  · intro hs hp
    have h : ¬(creds.secret_key = "" ∨ creds.pub_key = "") := by
      intro hor
      rcases hor with hor | hor
      · exact hs hor
      · exact hp hor
    exact ⟨_, by unfold UploadClient.new; exact if_neg h⟩

/-- Witness for the amended C8: empty credentials are rejected with the
exact error string; clean nonempty credentials construct both clients;
a control-byte public key panics the REST constructor. -/
theorem client_new_credential_validation_witness :
    (RestClient.new { sign_based_auth := false, api_version := ApiVersion.v06 }
        { secret_key := "", pub_key := "pk" } =
      some (.error "Uploadcare: invalid api credentials provided")) ∧
    (∃ c, RestClient.new { sign_based_auth := false, api_version := ApiVersion.v06 }
        { secret_key := "sk", pub_key := "pk" } = some (.ok c)) ∧
    (RestClient.new { sign_based_auth := false, api_version := ApiVersion.v06 }
        { secret_key := "sk", pub_key := "p\x7fk" } = none) ∧
    (∃ c, UploadClient.new { sign_based_upload := false }
        { secret_key := "sk", pub_key := "pk" } = .ok c) := by
  refine ⟨?_, ?_, ?_, ?_⟩
  · exact (client_new_credential_validation
      { sign_based_auth := false, api_version := ApiVersion.v06 }
      { sign_based_upload := false }
      { secret_key := "", pub_key := "pk" }).1.mpr (Or.inl rfl)
  · exact (client_new_credential_validation
      { sign_based_auth := false, api_version := ApiVersion.v06 }
      { sign_based_upload := false }
      { secret_key := "sk", pub_key := "pk" }).2.2.1
      (by decide) (by decide) (by decide)
  · exact (client_new_credential_validation
      { sign_based_auth := false, api_version := ApiVersion.v06 }
      { sign_based_upload := false }
      { secret_key := "sk", pub_key := "p\x7fk" }).2.2.2.1
      (by decide) (by decide) (by decide)
  · exact ((client_new_credential_validation
      { sign_based_auth := false, api_version := ApiVersion.v06 }
      { sign_based_upload := false }
      { secret_key := "sk", pub_key := "pk" }).2.2.2.2
      (by decide) (by decide))

/-! ## C6: behaviour on HTTP status 429

The upload client always returns `TooManyRequests 30`.  The REST client
indexes the Retry-After header and unwraps a `parse::<i32>()`: when the
header is absent (or does not parse as an i32) the call panics instead
of returning an error, so the unqualified "returns to the caller
(rather than panicking)" fails. -/

/-- Counterexample to C6: a REST 429 response that carries no
Retry-After header makes the call panic (modelled as `none`) instead of
returning an `Err`. -/
theorem rest_429_without_retry_after_panics :
    restHandleResponse decodeId decodeId
      { status := 429, retryAfter := none, body := "" } = none := rfl

/-- C6 as amended: on a 429 response the upload client always returns
`Err` with `TooManyRequests 30`; the REST client returns `Err` with
`TooManyRequests n` when the response's Retry-After header is present
and parses as the i32 `n`, and panics when the header is absent or does
not parse. -/
theorem too_many_requests_behaviour {R : Type}
    (de : String → Except String String) (dr : String → Except String R)
    (dflt : R) (res : HttpResponse) :
    (res.status = 429 →
      uploadHandleResponse dr dflt res = .error (.tooManyRequests 30)) ∧
    (∀ s n, res.status = 429 → res.retryAfter = some s →
      parseI32 s = some n →
      restHandleResponse de dr res = some (.error (.tooManyRequests n))) ∧
    (res.status = 429 → res.retryAfter = none →
      restHandleResponse de dr res = none) ∧
    (∀ s, res.status = 429 → res.retryAfter = some s → parseI32 s = none →
      restHandleResponse de dr res = none) := by
  refine ⟨?_, ?_, ?_, ?_⟩
  · intro h; simp [uploadHandleResponse, h]
  · intro s n h hra hp; simp [restHandleResponse, h, hra, hp]
  · intro h hra; simp [restHandleResponse, h, hra]
  · intro s h hra hp; simp [restHandleResponse, h, hra, hp]

/-- Witness for the amended C6 at concrete responses: upload yields the
fixed 30, REST parses the header value 10, and REST panics on a
non-numeric header. -/
theorem too_many_requests_behaviour_witness :
    uploadHandleResponse decodeId "" { status := 429, retryAfter := none, body := "limit" } =
      .error (.tooManyRequests 30) ∧
    restHandleResponse decodeId decodeId
      { status := 429, retryAfter := some "10", body := "" } =
      some (.error (.tooManyRequests 10)) ∧
    restHandleResponse decodeId decodeId
      { status := 429, retryAfter := some "soon", body := "" } = none := by
  refine ⟨?_, ?_, ?_⟩
  · exact (too_many_requests_behaviour decodeId decodeId ""
      { status := 429, retryAfter := none, body := "limit" }).1 rfl
  · exact (too_many_requests_behaviour decodeId decodeId ""
      { status := 429, retryAfter := some "10", body := "" }).2.1
      "10" 10 rfl rfl (by decide)
  · exact (too_many_requests_behaviour decodeId decodeId ""
      { status := 429, retryAfter := some "soon", body := "" }).2.2.2
      "soon" rfl rfl (by decide)

/-! ## C7: round trips per operation

Both `call_url` implementations are straight-line with a single
`execute`, so no call ever performs a second request.  But the REST
call runs the stored auth closure before executing (rest/mod.rs line
154): for a constructed client whose simple-auth value is an invalid
header value the closure panics and the call performs zero round trips,
not one. -/

/-- Counterexample to C7: with the constructible client `ctrlClient`
(control byte in the secret key, simple scheme) the REST call panics in
the auth closure before `execute` — the executed-request list is empty,
not of length one. -/
theorem rest_call_zero_requests_on_auth_panic :
    restCallUrl ctrlClient decodeId decodeId "GET" "/files/" none none
      "Mon, 05 Nov 2018 13:14:41 GMT" constServer =
      (none, ([] : List RestRequest)) := rfl

/-- The sign-based closure succeeds on any request carrying
Content-Type and Date headers. -/
theorem applyRestAuth_sign_isSome (creds : ApiCreds) (req : RestRequest)
    (hct : req.contentType.isSome) (hd : req.date.isSome) :
    (applyRestAuth (RestAuthScheme.signScheme creds) req).isSome := by
  obtain ⟨ct, hct⟩ := Option.isSome_iff_exists.mp hct
  obtain ⟨d, hd⟩ := Option.isSome_iff_exists.mp hd
  simp [applyRestAuth, RestAuth.sign_based, hct, hd]

/-- C7 as amended: every upload call executes exactly one HTTP request;
every REST call executes at most one and never a second — exactly one
whenever the stored auth closure succeeds (which the sign-based scheme
always does, the built request carrying Content-Type and Date), and
zero when the closure panics; and the call's outcome depends only on
the server's response to the single executed request: two servers that
agree on it produce identical results. -/
theorem call_url_round_trips {R : Type} (client : RestClient)
    (de : String → Except String String) (dr : String → Except String R)
    (method path : String) (query : Option String)
    (body : Option (List Nat)) (dateNow : String)
    (s1 s2 : RestRequest → HttpResponse) (dflt : R)
    (umethod uurl : String) (udata : Option Payload)
    (us1 us2 : UploadHttpRequest → HttpResponse) :
    (restCallUrl client de dr method path query body dateNow s1).2.length ≤ 1 ∧
    (∀ req, applyRestAuth client.scheme
        (restBuiltRequest method path query body dateNow) = some req →
      (restCallUrl client de dr method path query body dateNow s1).2 = [req]) ∧
    (applyRestAuth client.scheme
        (restBuiltRequest method path query body dateNow) = none →
      (restCallUrl client de dr method path query body dateNow s1).2 = []) ∧
    (∀ creds, client.scheme = RestAuthScheme.signScheme creds →
      (restCallUrl client de dr method path query body dateNow s1).2.length = 1) ∧
    ((∀ r ∈ (restCallUrl client de dr method path query body dateNow s1).2,
        s1 r = s2 r) →
      restCallUrl client de dr method path query body dateNow s1 =
        restCallUrl client de dr method path query body dateNow s2) ∧
    (uploadCallUrl dr dflt umethod uurl udata us1).2.length = 1 ∧
    ((∀ r ∈ (uploadCallUrl dr dflt umethod uurl udata us1).2, us1 r = us2 r) →
      uploadCallUrl dr dflt umethod uurl udata us1 =
        uploadCallUrl dr dflt umethod uurl udata us2) := by
  refine ⟨?_, ?_, ?_, ?_, ?_, rfl, ?_⟩
  · cases hap : applyRestAuth client.scheme
        (restBuiltRequest method path query body dateNow) <;>
      simp [restCallUrl, hap]
  · intro req h
    simp only [restCallUrl, h]
  · intro h
    simp only [restCallUrl, h]
  · intro creds hs
    have h1 : (applyRestAuth client.scheme
        (restBuiltRequest method path query body dateNow)).isSome := by
      rw [hs]
      exact applyRestAuth_sign_isSome creds _ rfl rfl
    obtain ⟨req, hreq⟩ := Option.isSome_iff_exists.mp h1
    simp only [restCallUrl, hreq, List.length_singleton]
  · intro hagree
    cases hap : applyRestAuth client.scheme
        (restBuiltRequest method path query body dateNow) with
    | none => simp only [restCallUrl, hap]
    | some req =>
      have hmem : req ∈
          (restCallUrl client de dr method path query body dateNow s1).2 := by
        simp only [restCallUrl, hap]
        exact List.mem_singleton.mpr rfl
      have he : s1 req = s2 req := hagree req hmem
      simp only [restCallUrl, hap, he]
  · intro hagree
    have he : us1 { method := umethod, url := uurl, payload := udata } =
        us2 { method := umethod, url := uurl, payload := udata } :=
      hagree _ (List.mem_singleton.mpr rfl)
    simp only [uploadCallUrl, he]

/-- Witness for the amended C7 at concrete arguments: the demo client
executes exactly the one simple-signed request, the upload call executes
one request, and servers agreeing on the executed requests yield the
same outcomes. -/
theorem call_url_round_trips_witness :
    (restCallUrl demoClient decodeId decodeId "GET" "/files/" none none
        "Mon, 05 Nov 2018 13:14:41 GMT" constServer).2 =
      [{ restBuiltRequest "GET" "/files/" none none
          "Mon, 05 Nov 2018 13:14:41 GMT" with
          authorization := some "Uploadcare.Simple testpk:demoprivatekey" }] ∧
    (uploadCallUrl decodeId "" "POST" "/base/" none constUploadServer).2.length = 1 ∧
    restCallUrl demoClient decodeId decodeId "GET" "/files/" none none
        "Mon, 05 Nov 2018 13:14:41 GMT" constServer =
      restCallUrl demoClient decodeId decodeId "GET" "/files/" none none
        "Mon, 05 Nov 2018 13:14:41 GMT" constServer ∧
    uploadCallUrl decodeId "" "POST" "/base/" none constUploadServer =
      uploadCallUrl decodeId "" "POST" "/base/" none constUploadServer := by
  obtain ⟨-, h2, -, -, h5, h6, h7⟩ := call_url_round_trips demoClient decodeId
    decodeId "GET" "/files/" none none "Mon, 05 Nov 2018 13:14:41 GMT"
    constServer constServer "" "POST" "/base/" none
    constUploadServer constUploadServer
  refine ⟨?_, h6, h5 (fun r _ => rfl), h7 (fun r _ => rfl)⟩
  exact h2 _ (by decide)

/-! ## C9: the Fields invariant and `add_signature_expire` -/

/-- C9: both upload auth schemes produce `Fields` with signature and
expire either both present (sign-based) or both absent (simple); under
that invariant `add_signature_expire` never panics on its unwraps, it
always adds the `UPLOADCARE_PUB_KEY` and `pub_key` form fields, and it
adds the `signature` and `expire` form fields exactly when the
signature is present, i.e. exactly for the sign-based scheme. -/
theorem upload_fields_invariant (creds : ApiCreds) (now : Nat)
    (fields : Fields) (form : List (String × String)) :
    (UploadAuth.simple creds).signature = none ∧
    (UploadAuth.simple creds).expire = none ∧
    (UploadAuth.sign_based creds now).signature.isSome = true ∧
    (UploadAuth.sign_based creds now).expire.isSome = true ∧
    (fields.signature.isSome = fields.expire.isSome →
      (add_signature_expire fields form).isSome = true) ∧
    (∀ form', add_signature_expire fields form = some form' →
      ("UPLOADCARE_PUB_KEY", fields.pub_key) ∈ form' ∧
        ("pub_key", fields.pub_key) ∈ form') ∧
    (fields.signature = none →
      add_signature_expire fields form =
        some (form ++ [("UPLOADCARE_PUB_KEY", fields.pub_key),
          ("pub_key", fields.pub_key)])) ∧
    (∀ sig exp, fields.signature = some sig → fields.expire = some exp →
      add_signature_expire fields form =
        some ((form ++ [("UPLOADCARE_PUB_KEY", fields.pub_key),
          ("pub_key", fields.pub_key)]) ++
          [("signature", sig), ("expire", toString exp)])) := by
  refine ⟨rfl, rfl, rfl, rfl, ?_, ?_, ?_, ?_⟩
  · exact add_signature_expire_isSome fields form
  · intro form' hform
    cases hs : fields.signature with
    | none =>
      rw [add_signature_expire_of_none fields form hs] at hform
      obtain rfl := Option.some.inj hform
      constructor <;> simp
    | some sig =>
      cases he : fields.expire with
      | none =>
        rw [add_signature_expire] at hform
        simp [hs, he] at hform
      | some exp =>
        rw [add_signature_expire_of_some fields form sig exp hs he] at hform
        obtain rfl := Option.some.inj hform
        constructor <;> simp
  · exact add_signature_expire_of_none fields form
  · exact fun sig exp => add_signature_expire_of_some fields form sig exp

/-- Witness for C9 at concrete fields: the simple scheme's fields pass
through with only the public-key entries, the sign-based-shaped fields
get signature and expire appended. -/
theorem upload_fields_invariant_witness :
    (UploadAuth.simple demoCreds).signature = none ∧
    (UploadAuth.sign_based demoCreds 100).expire.isSome = true ∧
    add_signature_expire { pub_key := "pk", signature := none, expire := none }
        [("uuid", "id1")] =
      some [("uuid", "id1"), ("UPLOADCARE_PUB_KEY", "pk"), ("pub_key", "pk")] ∧
    add_signature_expire
        { pub_key := "pk", signature := some "s1", expire := some 160 }
        [("uuid", "id1")] =
      some [("uuid", "id1"), ("UPLOADCARE_PUB_KEY", "pk"), ("pub_key", "pk"),
        ("signature", "s1"), ("expire", "160")] := by
  obtain ⟨h1, -, -, -, -, -, h7, -⟩ := upload_fields_invariant demoCreds 100
    { pub_key := "pk", signature := none, expire := none } [("uuid", "id1")]
  obtain ⟨-, -, -, h4, -, -, -, h8⟩ := upload_fields_invariant demoCreds 100
    { pub_key := "pk", signature := some "s1", expire := some 160 }
    [("uuid", "id1")]
  refine ⟨h1, h4, ?_, ?_⟩
  · rw [h7 rfl]; decide
  · rw [h8 "s1" 160 rfl rfl]; decide

/-! ## C10: empty-body ("EOF") tolerance -/

/-- C10: when the upload client receives a response whose status is not
one of the mapped error statuses and whose body fails JSON
deserialization with a message containing "EOF" (an empty body), the
call returns `Ok` with the default value of the result type;
analogously, webhook delete returns `Ok(())` when the underlying call
fails only with an error whose rendered message contains "EOF". -/
theorem upload_eof_defaults {R : Type} (dr : String → Except String R)
    (dflt : R) (res : HttpResponse) (m : String) (err : ErrValue) :
    (res.status ≠ 400 → res.status ≠ 403 → res.status ≠ 404 →
      res.status ≠ 413 → res.status ≠ 429 →
      dr res.body = .error m → containsEOF m = true →
      uploadHandleResponse dr dflt res = .ok dflt) ∧
    (containsEOF (errorToString err) = true →
      webhookDelete (.error err) = .ok ()) := by
  constructor
  · intro h1 h2 h3 h4 h5 hdr heof
    simp [uploadHandleResponse, h1, h2, h3, h4, h5, hdr, heof]
  · intro heof
    simp [webhookDelete, heof]

/-- Witness for C10: an empty-body decode failure on a 200 response
yields the default value, and webhook delete swallows an EOF decode
error. -/
theorem upload_eof_defaults_witness :
    uploadHandleResponse decodeFail "fallback"
      { status := 200, retryAfter := none, body := "EOF while parsing a value" } =
      .ok "fallback" ∧
    webhookDelete (.error (ErrValue.reqwest
      "error decoding response body: EOF while parsing a value at line 1 column 0")) =
      .ok () := by
  obtain ⟨h1, h2⟩ := upload_eof_defaults decodeFail "fallback"
    { status := 200, retryAfter := none, body := "EOF while parsing a value" }
    "EOF while parsing a value"
    (ErrValue.reqwest
      "error decoding response body: EOF while parsing a value at line 1 column 0")
  exact ⟨h1 (by decide) (by decide) (by decide) (by decide) (by decide)
    rfl (by decide), h2 (by decide)⟩
